import Mathlib

/-!
# Verification of the marketing-asset generator frontend

Shallow embedding of the OutputSpec registry (OutputConfigPanel), the
generation job controller (GeneratorPage.handleGenerate), and the download
materializer (handleDownloadAll / PreviewGrid.downloadAsset), together with
proofs of the specified properties.
-/

namespace AssetGen

/-- The five output types of `OUTPUT_TYPES` in OutputConfigPanel. -/
inductive OutputType where
  | poster
  | banner
  | ad
  | social_post
  | brochure
deriving DecidableEq, Repr

/-- The wire string of an output type (the `id` field of `OUTPUT_TYPES`). -/
def OutputType.str : OutputType → String
  | .poster => "poster"
  | .banner => "banner"
  | .ad => "ad"
  | .social_post => "social_post"
  | .brochure => "brochure"

/-- `defaultWidth` from the `OUTPUT_TYPES` table. -/
def OutputType.defaultWidth : OutputType → Int
  | .poster => 1080
  | .banner => 1920
  | .ad => 1200
  | .social_post => 1080
  | .brochure => 816

/-- `defaultHeight` from the `OUTPUT_TYPES` table. -/
def OutputType.defaultHeight : OutputType → Int
  | .poster => 1350
  | .banner => 600
  | .ad => 628
  | .social_post => 1080
  | .brochure => 1056

/-- One output configuration, as held in the `outputs` React state of
GeneratorPage. Widths come from `parseInt`, so they are modelled as
integers (they can be negative or zero). -/
structure OutputSpec where
  id : String
  type : String
  enabled : Bool
  language : String
  width : Int
  height : Int
  formats : List String
  generatePrint : Bool
deriving DecidableEq, Repr

/-- The initial `outputs` state of GeneratorPage (a single poster spec). -/
def initialOutputs : List OutputSpec :=
  [{ id := "poster", type := "poster", enabled := true, language := "English",
     width := 1080, height := 1350, formats := ["png", "jpeg", "pdf"],
     generatePrint := true }]

/-- `addOutput(type)` of OutputConfigPanel: appends a new spec with
type-keyed default dimensions, default formats, `generatePrint` true iff
the type is `poster`, and id `` `${type}_${Date.now()}` `` (the timestamp is
passed in as `now`). -/
def addOutput (outputs : List OutputSpec) (type : OutputType) (now : Nat) :
    List OutputSpec :=
  outputs ++ [{ id := type.str ++ "_" ++ toString now, type := type.str,
                enabled := true, language := "English",
                width := type.defaultWidth, height := type.defaultHeight,
                formats := ["png", "jpeg", "pdf"],
                generatePrint := type = OutputType.poster }]

/-- The fields `updateOutput` is called with from OutputConfigPanel
(the computed key `[field]` of `{ ...output, [field]: value }`). -/
inductive Field where
  | enabled
  | language
  | width
  | height
  | generatePrint
deriving DecidableEq, Repr

/-- A value passed as `updateOutput`'s third argument. Every call site
passes a value of the type matching the field. -/
inductive FieldValue where
  | b (x : Bool)
  | s (x : String)
  | i (x : Int)
deriving DecidableEq, Repr

/-- `{ ...output, [field]: value }` for the well-typed field/value
combinations that occur at the call sites; an ill-typed combination
(which no call site produces) is modelled as the identity. -/
def setField (o : OutputSpec) : Field → FieldValue → OutputSpec
  | .enabled, .b x => { o with enabled := x }
  | .language, .s x => { o with language := x }
  | .width, .i x => { o with width := x }
  | .height, .i x => { o with height := x }
  | .generatePrint, .b x => { o with generatePrint := x }
  | _, _ => o

/-- `updateOutput(id, field, value)` of OutputConfigPanel: replaces the
matching entry immutably, via `outputs.map`. -/
def updateOutput (outputs : List OutputSpec) (id : String) (field : Field)
    (value : FieldValue) : List OutputSpec :=
  outputs.map (fun o => if o.id = id then setField o field value else o)

/-- The formats branch of `toggleFormat`: remove the format if present
(`formats.filter(f => f !== format)`), otherwise append it
(`[...formats, format]`). -/
def toggleFmtList (formats : List String) (format : String) : List String :=
  if format ∈ formats then formats.filter (fun f => f ≠ format)
  else formats ++ [format]

/-- `toggleFormat(outputId, format)` of OutputConfigPanel. -/
def toggleFormat (outputs : List OutputSpec) (outputId : String)
    (format : String) : List OutputSpec :=
  outputs.map (fun o =>
    if o.id = outputId then { o with formats := toggleFmtList o.formats format }
    else o)

/-- `removeOutput(id)` of OutputConfigPanel: unconditional filter. -/
def removeOutput (outputs : List OutputSpec) (id : String) : List OutputSpec :=
  outputs.filter (fun o => o.id ≠ id)

/-- The remove operation as exposed by the presentation layer: the Remove
button is rendered only when `outputs.length > 1`, so `removeOutput` can
only be invoked on a registry of at least two entries. -/
def guardedRemove (outputs : List OutputSpec) (id : String) : List OutputSpec :=
  if outputs.length > 1 then removeOutput outputs id else outputs

/-- `parseInt(e.target.value) || 0` in the width/height input handlers:
`none` models a `NaN` parse (empty or non-numeric input), which the
`|| 0` fallback turns into `0`; a parsed `0` is likewise falsy and stays
`0`. -/
def parseIntOr0 : Option Int → Int
  | none => 0
  | some n => n

/-- The width input's `onChange` handler in OutputConfigPanel. -/
def widthInputChange (outputs : List OutputSpec) (id : String)
    (parsed : Option Int) : List OutputSpec :=
  updateOutput outputs id .width (.i (parseIntOr0 parsed))

/-- The height input's `onChange` handler in OutputConfigPanel. -/
def heightInputChange (outputs : List OutputSpec) (id : String)
    (parsed : Option Int) : List OutputSpec :=
  updateOutput outputs id .height (.i (parseIntOr0 parsed))

/-- The `settings` React state of GeneratorPage, sent verbatim in the
generation request. -/
structure GlobalSettings where
  auto_alt_text : Bool
  contrast_check : Bool
  brand_guidelines : Bool
deriving DecidableEq, Repr

/-- One element of `request.outputs` built in handleGenerate; `generatePrint`
is a `Bool` in the model, so `o.generatePrint || false` is just
`o.generatePrint`. -/
structure WireOutput where
  type : String
  language : String
  width : Int
  height : Int
  formats : List String
  generate_print : Bool
deriving DecidableEq, Repr

/-- The request body posted to `/api/generate`. -/
structure GenerationRequest where
  job_id : String
  outputs : List WireOutput
  settings : GlobalSettings
deriving DecidableEq, Repr

/-- An asset descriptor returned by `/api/assets/{job_id}`. -/
structure Asset where
  id : String
  output_type : String
  language : String
  width : Int
  height : Int
  format : String
  data : String
deriving DecidableEq, Repr

/-- Observable side effects of the controller, in chronological order:
network calls, toasts (the user-facing notifications) and the
`console.error` log. -/
inductive Effect where
  | postGenerate (req : GenerationRequest)
  | queryStatus
  | fetchAssets
  | toastSuccess (msg : String)
  | toastError (msg : String)
  | consoleError
deriving DecidableEq, Repr

/-- What one poll of `GET /api/jobs/{jobId}` yields inside the interval
callback: a status (`completed` carrying the subsequent assets fetch's
batch, `failed` carrying the optional `error` field, `pending`, or any
unrecognized status string), or a transport-level error (the `catch`). -/
inductive PollResult where
  | pending
  | completed (batch : List Asset)
  | failed (err : Option String)
  | unknown (status : String)
  | transportError
deriving DecidableEq, Repr

/-- The controller-relevant React state of GeneratorPage plus the timer
bookkeeping: `generating` is `isGenerating`, `assets` is
`generatedAssets`, `intervalActive` records whether `pollInterval` is
still scheduled, `timeoutActive` whether the 5-minute `setTimeout` is
still pending, and `capturedGenerating` is the value of the render-scope
`isGenerating` variable captured by the timeout callback's closure at
schedule time. `effects` accumulates observable side effects. -/
structure ControllerState where
  generating : Bool
  assets : List Asset
  intervalActive : Bool
  timeoutActive : Bool
  capturedGenerating : Bool
  effects : List Effect
deriving DecidableEq, Repr

/-- The state before any generate request. -/
def initState : ControllerState :=
  { generating := false, assets := [], intervalActive := false,
    timeoutActive := false, capturedGenerating := false, effects := [] }

/-- The polling cadence of `setInterval` (ms). -/
def pollIntervalMs : Nat := 3000

/-- The delay of the hard-timeout `setTimeout` (ms): 5 minutes. -/
def timeoutDelayMs : Nat := 300000

/-- JavaScript falsiness of the `jobId` state in `if (!jobId)`: `null` or
the empty string. -/
def jobIdFalsy : Option String → Bool
  | none => true
  | some s => s = ""

/-- Outcome of `axios.post(`/api/generate`, request)` as seen by
handleGenerate: acceptance, or a rejection carrying the optional
`error.response.data.detail`. -/
inductive SubmitResult where
  | ok
  | err (detail : Option String)
deriving DecidableEq, Repr

/-- `enabledOutputs.map((o) => ({...}))` of handleGenerate. -/
def toWire (o : OutputSpec) : WireOutput :=
  { type := o.type, language := o.language, width := o.width,
    height := o.height, formats := o.formats,
    generate_print := o.generatePrint }

/-- `handleGenerate` up to and including the submission call (lines
98–128): precondition checks (stay put, toast, no network call on
failure), then build the request, post it, and either enter polling
(scheduling the interval and the timeout, whose closure captures the
current render's `isGenerating`) or fail with a toast. -/
def startGenerate (s : ControllerState) (jobId : Option String)
    (outputs : List OutputSpec) (settings : GlobalSettings)
    (submit : SubmitResult) : ControllerState :=
  if jobIdFalsy jobId then
    { s with effects := s.effects ++ [.toastError "Please upload an image first"] }
  else
    let enabledOutputs := outputs.filter (fun o => o.enabled)
    if enabledOutputs.length = 0 then
      { s with effects :=
          s.effects ++ [.toastError "Please enable at least one output type"] }
    else
      let req : GenerationRequest :=
        { job_id := jobId.getD "", outputs := enabledOutputs.map toWire,
          settings := settings }
      match submit with
      | .err detail =>
          { s with generating := false, assets := [],
                   effects := s.effects ++ [.postGenerate req, .consoleError,
                     .toastError (detail.getD "Failed to generate assets")] }
      | .ok =>
          { s with generating := true, assets := [],
                   intervalActive := true, timeoutActive := true,
                   capturedGenerating := s.generating,
                   effects := s.effects ++ [.postGenerate req,
                     .toastSuccess "Generation started! This may take a moment..."] }

/-- One firing of the interval callback (lines 131–153). If the interval
has been cleared the callback no longer runs: no status query, no state
change. Otherwise the status query is issued and classified; `completed`
clears the interval, fetches the assets and replaces the store; `failed`
clears the interval and toasts the remote error; `pending` or an
unrecognized status leaves the state untouched; a transport error clears
the interval and logs to the console (no toast). -/
def pollTick (s : ControllerState) (r : PollResult) : ControllerState :=
  if s.intervalActive = false then s
  else
    match r with
    | .pending => { s with effects := s.effects ++ [.queryStatus] }
    | .unknown _ => { s with effects := s.effects ++ [.queryStatus] }
    | .completed batch =>
        { s with intervalActive := false, assets := batch, generating := false,
                 effects := s.effects ++ [.queryStatus, .fetchAssets,
                   .toastSuccess ("Generated " ++ toString batch.length ++
                     " assets successfully!")] }
    | .failed err =>
        { s with intervalActive := false, generating := false,
                 effects := s.effects ++ [.queryStatus,
                   .toastError (err.getD "Generation failed")] }
    | .transportError =>
        { s with intervalActive := false, generating := false,
                 effects := s.effects ++ [.queryStatus, .consoleError] }

/-- The firing of the 5-minute timeout callback (lines 156–162). It
always clears the interval, but the `if (isGenerating)` guard reads the
closure-captured render value, not the live state: only when that
captured value is true does it reset `isGenerating` and toast the
timeout message. -/
def timeoutFire (s : ControllerState) : ControllerState :=
  if s.timeoutActive = false then s
  else
    let s' := { s with timeoutActive := false, intervalActive := false }
    if s.capturedGenerating then
      { s' with generating := false,
                effects := s'.effects ++
                  [.toastError "Generation timed out. Please try again."] }
    else s'

/-- A scheduler event during the polling phase: an interval tick (with
the result the poll would observe) or the hard-timeout firing. -/
inductive Event where
  | tick (r : PollResult)
  | timeout
deriving DecidableEq, Repr

/-- Process one scheduler event. -/
def step (s : ControllerState) : Event → ControllerState
  | .tick r => pollTick s r
  | .timeout => timeoutFire s

/-- Process a sequence of scheduler events in order (the single-threaded
event loop). -/
def run (s : ControllerState) (es : List Event) : ControllerState :=
  es.foldl step s

/-- Number of status queries (`GET /api/jobs/{jobId}`) issued so far. -/
def queryCount (s : ControllerState) : Nat :=
  s.effects.countP (fun e => e = .queryStatus)

/-- Number of user-facing error notifications shown so far. -/
def errorToastCount (s : ControllerState) : Nat :=
  s.effects.countP (fun e => match e with | .toastError _ => true | _ => false)

/-- A poll result whose classification is terminal in the code: the
`completed` and `failed` branches clear the interval. -/
def PollResult.isTerminal : PollResult → Bool
  | .completed _ => true
  | .failed _ => true
  | _ => false

/-- The observable effect of saving one asset locally: the anchor's
`download` filename and its `href` payload. -/
structure SaveEffect where
  filename : String
  href : String
deriving DecidableEq, Repr

/-- `downloadAsset(asset)` of PreviewGrid (the per-asset save): builds
the filename template and the base64 data URI. -/
def downloadAsset (a : Asset) : SaveEffect :=
  { filename := "asset_" ++ a.output_type ++ "_" ++ a.language ++ "_" ++
      toString a.width ++ "x" ++ toString a.height ++ "." ++ a.format,
    href := "data:image/" ++ a.format ++ ";base64," ++ a.data }

/-- The body of `handleDownloadAll`'s `forEach`, from index `i` on: each
asset's save (built inline in GeneratorPage with the same filename and
href construction as PreviewGrid's `downloadAsset`) is scheduled with a
`setTimeout` delay of `index * 100` ms. -/
def scheduleSavesFrom : Nat → List Asset → List (Nat × SaveEffect)
  | _, [] => []
  | i, a :: rest =>
      (i * 100,
        { filename := "asset_" ++ a.output_type ++ "_" ++ a.language ++ "_" ++
            toString a.width ++ "x" ++ toString a.height ++ "." ++ a.format,
          href := "data:image/" ++ a.format ++ ";base64," ++ a.data }) ::
      scheduleSavesFrom (i + 1) rest

/-- `handleDownloadAll` of GeneratorPage (lines 171–184): iterate the
store in order, scheduling each save at `index * 100` ms. -/
def handleDownloadAll (assets : List Asset) : List (Nat × SaveEffect) :=
  scheduleSavesFrom 0 assets

/-- The spec's filename pattern, written from the spec's words:
`asset_{type}_{language}_{width}x{height}.{format}`. Used only to compare
the code's filename construction against the spec. -/
def specFilenamePattern (type language : String) (width height : Int)
    (format : String) : String :=
  "asset_" ++ type ++ "_" ++ language ++ "_" ++ toString width ++ "x" ++
    toString height ++ "." ++ format

end AssetGen

namespace AssetGen

/-! ## Registry lemmas -/

/-- Fields of the matching entry other than the updated one are
unchanged by `setField`. -/
def agreesExcept (f : Field) (o u : OutputSpec) : Prop :=
  u.id = o.id ∧ u.type = o.type ∧ u.formats = o.formats ∧
  (f ≠ .enabled → u.enabled = o.enabled) ∧
  (f ≠ .language → u.language = o.language) ∧
  (f ≠ .width → u.width = o.width) ∧
  (f ≠ .height → u.height = o.height) ∧
  (f ≠ .generatePrint → u.generatePrint = o.generatePrint)

/-- All fields other than `formats` are unchanged. -/
def agreesExceptFormats (o u : OutputSpec) : Prop :=
  u.id = o.id ∧ u.type = o.type ∧ u.enabled = o.enabled ∧
  u.language = o.language ∧ u.width = o.width ∧ u.height = o.height ∧
  u.generatePrint = o.generatePrint

theorem setField_agreesExcept (o : OutputSpec) (f : Field) (v : FieldValue) :
    agreesExcept f o (setField o f v) := by
  cases f <;> cases v <;> simp [setField, agreesExcept]

theorem mem_toggleFmtList_toggleFmtList (l : List String) (fmt g : String) :
    g ∈ toggleFmtList (toggleFmtList l fmt) fmt ↔ g ∈ l := by
  by_cases hf : fmt ∈ l
  · have h1 : toggleFmtList l fmt = l.filter (fun f => f ≠ fmt) := by
      simp [toggleFmtList, hf]
    have h2 : fmt ∉ l.filter (fun f => f ≠ fmt) := by
      simp [List.mem_filter]
    rw [h1, toggleFmtList, if_neg h2]
    simp only [List.mem_append, List.mem_filter, List.mem_singleton]
    constructor
    · rintro (⟨hg, _⟩ | rfl)
      · exact hg
      · exact hf
    · intro hg
      by_cases hgf : g = fmt
      · exact Or.inr hgf
      · exact Or.inl ⟨hg, by simpa using hgf⟩
  · have h1 : toggleFmtList l fmt = l ++ [fmt] := by
      simp [toggleFmtList, hf]
    have h2 : fmt ∈ l ++ [fmt] := by simp
    rw [h1, toggleFmtList, if_pos h2, List.filter_append]
    have h3 : (l.filter (fun f => f ≠ fmt)) = l :=
      List.filter_eq_self.mpr (fun a ha => by
        simp only [ne_eq, decide_eq_true_eq]
        rintro rfl
        exact hf ha)
    simp only [h3, List.filter_cons, List.filter_nil]
    simp

theorem toggleFormat_cons (o : OutputSpec) (rest : List OutputSpec)
    (id fmt : String) :
    toggleFormat (o :: rest) id fmt =
      (if o.id = id then { o with formats := toggleFmtList o.formats fmt }
       else o) :: toggleFormat rest id fmt := rfl

theorem updateOutput_cons (o : OutputSpec) (rest : List OutputSpec)
    (id : String) (f : Field) (v : FieldValue) :
    updateOutput (o :: rest) id f v =
      (if o.id = id then setField o f v else o) :: updateOutput rest id f v := by
  simp only [updateOutput, List.map_cons]

/-- C8: toggling the same format twice on the same spec id restores every
entry's formats set up to membership (and leaves all other fields, and
all other entries, exactly as they were). -/
theorem toggleFormat_toggleFormat_mem (outputs : List OutputSpec)
    (id fmt : String) :
    List.Forall₂
      (fun o u => u.id = o.id ∧ u.type = o.type ∧ u.enabled = o.enabled ∧
        u.language = o.language ∧ u.width = o.width ∧ u.height = o.height ∧
        u.generatePrint = o.generatePrint ∧
        ∀ g, g ∈ u.formats ↔ g ∈ o.formats)
      outputs (toggleFormat (toggleFormat outputs id fmt) id fmt) := by
  induction outputs with
  | nil => exact List.Forall₂.nil
  | cons o rest ih =>
    rw [toggleFormat_cons]
    by_cases h : o.id = id
    · rw [if_pos h, toggleFormat_cons,
        if_pos (show ({ o with formats := toggleFmtList o.formats fmt} :
          OutputSpec).id = id from h)]
      refine List.Forall₂.cons ⟨rfl, rfl, rfl, rfl, rfl, rfl, rfl, ?_⟩ ih
      intro g
      exact mem_toggleFmtList_toggleFmtList o.formats fmt g
    · rw [if_neg h, toggleFormat_cons, if_neg h]
      exact List.Forall₂.cons
        ⟨rfl, rfl, rfl, rfl, rfl, rfl, rfl, fun g => Iff.rfl⟩ ih

/-- C10: `updateOutput` and `toggleFormat` are frame-preserving: entries
with a different id are untouched, the matching entry changes only in the
named field (resp. only in `formats`), and when no entry carries the id
the whole registry is unchanged. -/
theorem updateOutput_toggleFormat_frame (outputs : List OutputSpec)
    (id : String) (field : Field) (v : FieldValue) (fmt : String) :
    List.Forall₂
      (fun o u => (o.id ≠ id → u = o) ∧ (o.id = id → agreesExcept field o u))
      outputs (updateOutput outputs id field v) ∧
    List.Forall₂
      (fun o u => (o.id ≠ id → u = o) ∧ (o.id = id → agreesExceptFormats o u))
      outputs (toggleFormat outputs id fmt) ∧
    ((∀ o ∈ outputs, o.id ≠ id) →
      updateOutput outputs id field v = outputs ∧
      toggleFormat outputs id fmt = outputs) := by
  refine ⟨?_, ?_, ?_⟩
  · induction outputs with
    | nil => exact List.Forall₂.nil
    | cons o rest ih =>
      rw [updateOutput_cons]
      by_cases h : o.id = id
      · rw [if_pos h]
        exact List.Forall₂.cons
          ⟨fun hno => absurd h hno, fun _ => setField_agreesExcept o field v⟩ ih
      · rw [if_neg h]
        exact List.Forall₂.cons ⟨fun _ => rfl, fun hyes => absurd hyes h⟩ ih
  · induction outputs with
    | nil => exact List.Forall₂.nil
    | cons o rest ih =>
      rw [toggleFormat_cons]
      by_cases h : o.id = id
      · rw [if_pos h]
        exact List.Forall₂.cons
          ⟨fun hno => absurd h hno,
           fun _ => ⟨rfl, rfl, rfl, rfl, rfl, rfl, rfl⟩⟩ ih
      · rw [if_neg h]
        exact List.Forall₂.cons ⟨fun _ => rfl, fun hyes => absurd hyes h⟩ ih
  · intro hall
    constructor
    · induction outputs with
      | nil => rfl
      | cons o rest ih =>
        rw [updateOutput_cons, if_neg (hall o (List.mem_cons_self o rest))]
        rw [ih (fun o' ho' => hall o' (List.mem_cons_of_mem o ho'))]
    · induction outputs with
      | nil => rfl
      | cons o rest ih =>
        rw [toggleFormat_cons, if_neg (hall o (List.mem_cons_self o rest))]
        rw [ih (fun o' ho' => hall o' (List.mem_cons_of_mem o ho'))]

/-- Concrete instantiation of `updateOutput_toggleFormat_frame`. -/
theorem updateOutput_toggleFormat_frame_witness :
    List.Forall₂
      (fun o u => (o.id ≠ "poster" → u = o) ∧
        (o.id = "poster" → agreesExcept Field.width o u))
      initialOutputs (updateOutput initialOutputs "poster" Field.width
        (FieldValue.i 500)) ∧
    List.Forall₂
      (fun o u => (o.id ≠ "poster" → u = o) ∧
        (o.id = "poster" → agreesExceptFormats o u))
      initialOutputs (toggleFormat initialOutputs "poster" "svg") :=
  ⟨(updateOutput_toggleFormat_frame initialOutputs "poster" Field.width
      (FieldValue.i 500) "svg").1,
   (updateOutput_toggleFormat_frame initialOutputs "poster" Field.width
      (FieldValue.i 500) "svg").2.1⟩

/-- C5: the remove operation exposed by the panel (the Remove button is
rendered only when more than one entry exists) never leaves the registry
empty, for a nonempty registry with pairwise-distinct ids. -/
theorem guardedRemove_nonempty (outputs : List OutputSpec) (id : String)
    (h0 : outputs ≠ [])
    (hids : (outputs.map OutputSpec.id).Nodup) :
    1 ≤ (guardedRemove outputs id).length := by
  unfold guardedRemove
  by_cases h : outputs.length > 1
  · rw [if_pos h]
    match outputs, h, hids with
    | a :: b :: t, _, hids =>
      have hab : a.id ≠ b.id := by
        simp only [List.map_cons, List.nodup_cons, List.mem_cons] at hids
        exact fun e => hids.1 (Or.inl e)
      by_cases ha : a.id = id
      · have hb : b.id ≠ id := fun e => hab (ha.trans e.symm)
        have hmem : b ∈ removeOutput (a :: b :: t) id := by
          unfold removeOutput
          rw [List.mem_filter]
          exact ⟨List.mem_cons_of_mem a (List.mem_cons_self b t), by simpa using hb⟩
        exact List.length_pos.mpr (List.ne_nil_of_mem hmem)
      · have hmem : a ∈ removeOutput (a :: b :: t) id := by
          unfold removeOutput
          rw [List.mem_filter]
          exact ⟨List.mem_cons_self a (b :: t), by simpa using ha⟩
        exact List.length_pos.mpr (List.ne_nil_of_mem hmem)
  · rw [if_neg h]
    exact List.length_pos.mpr h0

/-- Concrete instantiation of `guardedRemove_nonempty`. -/
theorem guardedRemove_nonempty_witness :
    1 ≤ (guardedRemove initialOutputs "poster").length :=
  guardedRemove_nonempty initialOutputs "poster" (by decide) (by decide)

/-- A registry operation reachable from the OutputConfigPanel UI. -/
inductive RegOp where
  | add (type : OutputType) (now : Nat)
  | update (id : String) (field : Field) (value : FieldValue)
  | toggle (id : String) (fmt : String)
  | remove (id : String)
deriving DecidableEq, Repr

/-- Apply one registry operation (remove as exposed by the panel). -/
def applyOp (outputs : List OutputSpec) : RegOp → List OutputSpec
  | .add t now => addOutput outputs t now
  | .update id f v => updateOutput outputs id f v
  | .toggle id fmt => toggleFormat outputs id fmt
  | .remove id => guardedRemove outputs id

/-- Apply a sequence of registry operations in order. -/
def applyOps (outputs : List OutputSpec) (ops : List RegOp) : List OutputSpec :=
  ops.foldl applyOp outputs

/-- An update value that keeps the dimension invariant: a width or height
update must carry a positive integer; all other updates are unconstrained. -/
def valuePositive : Field → FieldValue → Bool
  | .width, .i n => 0 < n
  | .height, .i n => 0 < n
  | _, _ => true

/-- An operation that keeps the dimension invariant. -/
def opPositive : RegOp → Bool
  | .update _ f v => valuePositive f v
  | _ => true

theorem defaultDims_pos (t : OutputType) :
    0 < t.defaultWidth ∧ 0 < t.defaultHeight := by
  cases t <;> exact ⟨by norm_num [OutputType.defaultWidth],
    by norm_num [OutputType.defaultHeight]⟩

theorem setField_dims_pos (o : OutputSpec) (f : Field) (v : FieldValue)
    (ho : 0 < o.width ∧ 0 < o.height) (hv : valuePositive f v = true) :
    0 < (setField o f v).width ∧ 0 < (setField o f v).height := by
  cases f <;> cases v <;>
    simp_all [setField, valuePositive]

theorem applyOp_dims_pos (outputs : List OutputSpec) (op : RegOp)
    (h0 : ∀ o ∈ outputs, 0 < o.width ∧ 0 < o.height)
    (hop : opPositive op = true) :
    ∀ o ∈ applyOp outputs op, 0 < o.width ∧ 0 < o.height := by
  intro o ho
  match op with
  | .add t now =>
    rw [applyOp, addOutput, List.mem_append] at ho
    rcases ho with ho | ho
    · exact h0 o ho
    · simp only [List.mem_singleton] at ho
      subst ho
      exact defaultDims_pos t
  | .update id f v =>
    rw [applyOp, updateOutput, List.mem_map] at ho
    obtain ⟨o', ho', rfl⟩ := ho
    by_cases h : o'.id = id
    · rw [if_pos h]
      exact setField_dims_pos o' f v (h0 o' ho') hop
    · rw [if_neg h]
      exact h0 o' ho'
  | .toggle id fmt =>
    rw [applyOp, toggleFormat, List.mem_map] at ho
    obtain ⟨o', ho', rfl⟩ := ho
    by_cases h : o'.id = id
    · rw [if_pos h]
      exact h0 o' ho'
    · rw [if_neg h]
      exact h0 o' ho'
  | .remove id =>
    rw [applyOp, guardedRemove] at ho
    by_cases h : outputs.length > 1
    · rw [if_pos h, removeOutput, List.mem_filter] at ho
      exact h0 o ho.1
    · rw [if_neg h] at ho
      exact h0 o ho

/-- C6 (amended): after any sequence of panel operations, every entry's
width and height stay positive, provided the initial registry's
dimensions are positive and every width/height update carries a positive
value. (The input handlers can supply 0 or negative values, which is why
the value hypothesis is needed: see the counterexample.) -/
theorem dims_positive_of_positive_updates (outputs : List OutputSpec)
    (ops : List RegOp)
    (h0 : ∀ o ∈ outputs, 0 < o.width ∧ 0 < o.height)
    (hops : ∀ op ∈ ops, opPositive op = true) :
    ∀ o ∈ applyOps outputs ops, 0 < o.width ∧ 0 < o.height := by
  induction ops generalizing outputs with
  | nil => exact h0
  | cons op rest ih =>
    rw [applyOps, List.foldl_cons]
    exact ih (applyOp outputs op)
      (applyOp_dims_pos outputs op h0 (hops op (List.mem_cons_self op rest)))
      (fun op' hop' => hops op' (List.mem_cons_of_mem op hop'))

/-- Concrete instantiation of `dims_positive_of_positive_updates`: the
initial registry after an add, a positive width update, a format toggle
and a remove, specialized to the resulting poster entry. -/
theorem dims_positive_of_positive_updates_witness :
    (0 : Int) < 500 ∧ (0 : Int) < 1350 :=
  dims_positive_of_positive_updates initialOutputs
    [RegOp.add OutputType.banner 7,
     RegOp.update "poster" Field.width (FieldValue.i 500),
     RegOp.toggle "poster" "svg",
     RegOp.remove "banner_7"] (by decide) (by decide)
    { id := "poster", type := "poster", enabled := true, language := "English",
      width := 500, height := 1350, formats := ["png", "jpeg", "pdf", "svg"],
      generatePrint := true } (by decide)

/-- C6 (counterexample): the width input's `onChange` handler with an
empty or non-numeric input (`parseInt` yields `NaN`, `|| 0` turns it into
`0`) drives the poster entry's width to 0, so the positivity invariant
does not survive an arbitrary update. -/
theorem dims_positive_counterexample :
    ¬ (∀ o ∈ widthInputChange initialOutputs "poster" none,
        0 < o.width ∧ 0 < o.height) := by
  decide

/-! ## Controller lemmas -/

/-- The initial `settings` React state of GeneratorPage. -/
def defaultSettings : GlobalSettings :=
  { auto_alt_text := true, contrast_check := true, brand_guidelines := false }

/-- A freshly submitted run: job id present, the initial registry (one
enabled poster), submission accepted. -/
def afterSubmit : ControllerState :=
  startGenerate initState (some "J1") initialOutputs defaultSettings .ok

/-- Once the interval has been cleared and the timeout closure captured a
false `isGenerating`, no later scheduler event changes the observable
state: no effects are added (in particular no status query), and
`generating`, the asset store and the cleared interval stay as they are. -/
theorem run_frozen (es : List Event) (s : ControllerState)
    (h1 : s.intervalActive = false) (h2 : s.capturedGenerating = false) :
    (run s es).effects = s.effects ∧ (run s es).generating = s.generating ∧
    (run s es).assets = s.assets ∧ (run s es).intervalActive = false ∧
    (run s es).capturedGenerating = false := by
  induction es generalizing s with
  | nil => exact ⟨rfl, rfl, rfl, h1, h2⟩
  | cons e rest ih =>
    rw [run, List.foldl_cons]
    match e with
    | .tick r =>
      have hs : step s (.tick r) = s := by
        rw [step, pollTick.eq_def, if_pos h1]
      rw [hs]
      exact ih s h1 h2
    | .timeout =>
      by_cases ht : s.timeoutActive = false
      · have hs : step s .timeout = s := by
          rw [step, timeoutFire, if_pos ht]
        rw [hs]
        exact ih s h1 h2
      · have hs : step s .timeout =
            { s with timeoutActive := false, intervalActive := false } := by
          rw [step, timeoutFire, if_neg ht, if_neg (by simp [h2])]
        rw [hs]
        exact ih { s with timeoutActive := false, intervalActive := false } rfl h2

theorem pollTick_terminal_clears (s : ControllerState) (r : PollResult)
    (hterm : r.isTerminal = true) :
    (pollTick s r).intervalActive = false := by
  by_cases h : s.intervalActive = false
  · rw [pollTick.eq_def, if_pos h]
    exact h
  · rw [pollTick.eq_def, if_neg h]
    cases r with
    | completed batch => rfl
    | failed err => rfl
    | pending => exact absurd hterm (by simp [PollResult.isTerminal])
    | unknown st => exact absurd hterm (by simp [PollResult.isTerminal])
    | transportError => exact absurd hterm (by simp [PollResult.isTerminal])

theorem pollTick_capturedGenerating (s : ControllerState) (r : PollResult) :
    (pollTick s r).capturedGenerating = s.capturedGenerating := by
  rw [pollTick.eq_def]
  by_cases h : s.intervalActive = false
  · rw [if_pos h]
  · rw [if_neg h]
    cases r <;> rfl

theorem timeoutFire_clears (s : ControllerState) (hto : s.timeoutActive = true)
    (hcap : s.capturedGenerating = false) :
    timeoutFire s = { s with timeoutActive := false, intervalActive := false } := by
  rw [timeoutFire, if_neg (by simp [hto]), if_neg (by simp [hcap])]

/-- C2: once a poll has been classified terminally (`completed` or
`failed`), or the hard timeout has fired, no later scheduler event
produces any side effect — in particular no further status query — and
the recorded state (generating flag, asset store) never changes, for any
state whose timeout closure captured a false `isGenerating` (which is
the case in every reachable run). -/
theorem no_poll_after_terminal (s : ControllerState) (r : PollResult)
    (es : List Event) (hterm : r.isTerminal = true)
    (hcap : s.capturedGenerating = false) (hto : s.timeoutActive = true) :
    ((run (pollTick s r) es).effects = (pollTick s r).effects ∧
     (run (pollTick s r) es).generating = (pollTick s r).generating ∧
     (run (pollTick s r) es).assets = (pollTick s r).assets ∧
     (run (pollTick s r) es).intervalActive = false) ∧
    ((run (timeoutFire s) es).effects = (timeoutFire s).effects ∧
     (run (timeoutFire s) es).intervalActive = false) := by
  constructor
  · have hclear : (pollTick s r).intervalActive = false :=
      pollTick_terminal_clears s r hterm
    have hcap' : (pollTick s r).capturedGenerating = false := by
      rw [pollTick_capturedGenerating, hcap]
    obtain ⟨e1, e2, e3, e4, _⟩ := run_frozen es (pollTick s r) hclear hcap'
    exact ⟨e1, e2, e3, e4⟩
  · have hfire := timeoutFire_clears s hto hcap
    have hclear : (timeoutFire s).intervalActive = false := by rw [hfire]
    have hcap' : (timeoutFire s).capturedGenerating = false := by
      rw [hfire]
      exact hcap
    obtain ⟨e1, _, _, e4, _⟩ := run_frozen es (timeoutFire s) hclear hcap'
    exact ⟨e1, e4⟩

/-- Concrete instantiation of `no_poll_after_terminal`: a freshly
submitted run whose first poll reports `failed`, followed by two further
interval firings and the timeout. -/
theorem no_poll_after_terminal_witness :
    ((run (pollTick afterSubmit (PollResult.failed none))
        [Event.tick PollResult.pending, Event.timeout,
         Event.tick PollResult.pending]).effects =
      (pollTick afterSubmit (PollResult.failed none)).effects ∧
     (run (pollTick afterSubmit (PollResult.failed none))
        [Event.tick PollResult.pending, Event.timeout,
         Event.tick PollResult.pending]).generating =
      (pollTick afterSubmit (PollResult.failed none)).generating ∧
     (run (pollTick afterSubmit (PollResult.failed none))
        [Event.tick PollResult.pending, Event.timeout,
         Event.tick PollResult.pending]).assets =
      (pollTick afterSubmit (PollResult.failed none)).assets ∧
     (run (pollTick afterSubmit (PollResult.failed none))
        [Event.tick PollResult.pending, Event.timeout,
         Event.tick PollResult.pending]).intervalActive = false) ∧
    ((run (timeoutFire afterSubmit)
        [Event.tick PollResult.pending, Event.timeout,
         Event.tick PollResult.pending]).effects =
      (timeoutFire afterSubmit).effects ∧
     (run (timeoutFire afterSubmit)
        [Event.tick PollResult.pending, Event.timeout,
         Event.tick PollResult.pending]).intervalActive = false) :=
  no_poll_after_terminal afterSubmit (PollResult.failed none)
    [Event.tick PollResult.pending, Event.timeout, Event.tick PollResult.pending]
    (by decide) (by decide) (by decide)

/-- C3: with no (truthy) job id, or with every output disabled,
handleGenerate leaves the controller exactly where it was (still idle: no
generating flag, no timers, untouched store), issues no network call, and
reports the specific reason — the missing upload takes priority
regardless of the OutputSpec state. -/
theorem precondition_reject (s : ControllerState) (jobId : Option String)
    (outputs : List OutputSpec) (settings : GlobalSettings)
    (submit : SubmitResult)
    (h : jobIdFalsy jobId = true ∨ outputs.filter (fun o => o.enabled) = []) :
    ((startGenerate s jobId outputs settings submit).generating = s.generating ∧
     (startGenerate s jobId outputs settings submit).assets = s.assets ∧
     (startGenerate s jobId outputs settings submit).intervalActive =
       s.intervalActive ∧
     (startGenerate s jobId outputs settings submit).timeoutActive =
       s.timeoutActive) ∧
    (∀ req, Effect.postGenerate req ∈
        (startGenerate s jobId outputs settings submit).effects →
      Effect.postGenerate req ∈ s.effects) ∧
    (jobIdFalsy jobId = true →
      (startGenerate s jobId outputs settings submit).effects =
        s.effects ++ [Effect.toastError "Please upload an image first"]) ∧
    (jobIdFalsy jobId = false →
      (startGenerate s jobId outputs settings submit).effects =
        s.effects ++ [Effect.toastError "Please enable at least one output type"]) := by
  by_cases hj : jobIdFalsy jobId = true
  · have e : startGenerate s jobId outputs settings submit =
        { s with effects :=
            s.effects ++ [Effect.toastError "Please upload an image first"] } := by
      rw [startGenerate, if_pos hj]
    rw [e]
    refine ⟨⟨rfl, rfl, rfl, rfl⟩, ?_, fun _ => rfl, fun hj' => absurd hj (by simp [hj'])⟩
    intro req hreq
    rcases List.mem_append.mp hreq with h' | h'
    · exact h'
    · simp at h'
  · have hf : outputs.filter (fun o => o.enabled) = [] := h.resolve_left hj
    have hlen : (outputs.filter (fun o => o.enabled)).length = 0 := by
      rw [hf]
      rfl
    have e : startGenerate s jobId outputs settings submit =
        { s with effects := s.effects ++
            [Effect.toastError "Please enable at least one output type"] } := by
      rw [startGenerate, if_neg hj]
      simp [hlen]
    rw [e]
    refine ⟨⟨rfl, rfl, rfl, rfl⟩, ?_, fun hj' => absurd hj' hj,
      fun _ => rfl⟩
    intro req hreq
    rcases List.mem_append.mp hreq with h' | h'
    · exact h'
    · simp at h'

/-- Concrete instantiation of `precondition_reject`: no upload yet. -/
theorem precondition_reject_witness :
    (startGenerate initState none initialOutputs defaultSettings .ok).generating =
      initState.generating ∧
    (startGenerate initState none initialOutputs defaultSettings .ok).effects =
      initState.effects ++ [Effect.toastError "Please upload an image first"] :=
  ⟨(precondition_reject initState none initialOutputs defaultSettings .ok
      (Or.inl (by decide))).1.1,
   (precondition_reject initState none initialOutputs defaultSettings .ok
      (Or.inl (by decide))).2.2.1 (by decide)⟩

theorem wire_formats_nonempty (outputs : List OutputSpec)
    (h : ∀ o ∈ outputs, o.enabled = true → o.formats ≠ []) :
    ∀ w ∈ (outputs.filter (fun o => o.enabled)).map toWire, w.formats ≠ [] := by
  intro w hw
  obtain ⟨o, ho, rfl⟩ := List.mem_map.mp hw
  have hmem := List.mem_filter.mp ho
  exact h o hmem.1 (by simpa using hmem.2)

/-- C7 (amended): a generate submission copies each enabled OutputSpec's
formats list into the request unchecked, so every newly posted request
has non-empty per-output formats exactly when every enabled spec's
formats list is non-empty at submission time. -/
theorem submitted_formats_nonempty (s : ControllerState)
    (jobId : Option String) (outputs : List OutputSpec)
    (settings : GlobalSettings) (submit : SubmitResult)
    (h : ∀ o ∈ outputs, o.enabled = true → o.formats ≠ []) :
    ∀ req, Effect.postGenerate req ∈
        (startGenerate s jobId outputs settings submit).effects →
      Effect.postGenerate req ∈ s.effects ∨ ∀ w ∈ req.outputs, w.formats ≠ [] := by
  intro req hreq
  by_cases hj : jobIdFalsy jobId = true
  · rw [startGenerate, if_pos hj] at hreq
    rcases List.mem_append.mp hreq with h' | h'
    · exact Or.inl h'
    · simp at h'
  · by_cases hlen : (outputs.filter (fun o => o.enabled)).length = 0
    · rw [startGenerate, if_neg hj] at hreq
      simp only [hlen, if_true] at hreq
      rcases List.mem_append.mp hreq with h' | h'
      · exact Or.inl h'
      · simp at h'
    · match submit with
      | .err detail =>
        rw [startGenerate, if_neg hj] at hreq
        simp only [if_neg hlen] at hreq
        rcases List.mem_append.mp hreq with h' | h'
        · exact Or.inl h'
        · simp only [List.mem_cons, List.not_mem_nil, or_false] at h'
          rcases h' with h' | h' | h'
          · rcases Effect.postGenerate.inj h' with rfl
            exact Or.inr (wire_formats_nonempty outputs h)
          · exact absurd h' (by simp)
          · exact absurd h' (by simp)
      | .ok =>
        rw [startGenerate, if_neg hj] at hreq
        simp only [if_neg hlen] at hreq
        rcases List.mem_append.mp hreq with h' | h'
        · exact Or.inl h'
        · simp only [List.mem_cons, List.not_mem_nil, or_false] at h'
          rcases h' with h' | h'
          · rcases Effect.postGenerate.inj h' with rfl
            exact Or.inr (wire_formats_nonempty outputs h)
          · exact absurd h' (by simp)

/-- Concrete instantiation of `submitted_formats_nonempty`: a fresh
submission of the initial registry, specialized to its single wire
output. -/
theorem submitted_formats_nonempty_witness :
    ({ type := "poster", language := "English", width := 1080, height := 1350,
       formats := ["png", "jpeg", "pdf"], generate_print := true } :
      WireOutput).formats ≠ [] :=
  ((submitted_formats_nonempty initState (some "J1") initialOutputs
      defaultSettings .ok (by decide)
      { job_id := "J1",
        outputs := [{ type := "poster", language := "English", width := 1080,
                      height := 1350, formats := ["png", "jpeg", "pdf"],
                      generate_print := true }],
        settings := defaultSettings }
      (by decide)).resolve_left (by decide))
    { type := "poster", language := "English", width := 1080, height := 1350,
      formats := ["png", "jpeg", "pdf"], generate_print := true }
    (by decide)

/-- The registry that exhibits the C7 gap: one enabled poster whose
formats set has been toggled empty. -/
def emptyFormatsOutputs : List OutputSpec :=
  [{ id := "poster", type := "poster", enabled := true, language := "English",
     width := 1080, height := 1350, formats := [], generatePrint := true }]

/-- C7 (counterexample): with an enabled spec whose formats set is empty,
the submission goes through and the posted request contains an output
with an empty formats set — the code never checks non-emptiness. -/
theorem submitted_formats_empty_counterexample :
    ¬ (∀ req, Effect.postGenerate req ∈
        (startGenerate initState (some "J1") emptyFormatsOutputs defaultSettings
          .ok).effects →
      ∀ w ∈ req.outputs, w.formats ≠ []) := by
  intro hclaim
  exact hclaim
    { job_id := "J1",
      outputs := [{ type := "poster", language := "English", width := 1080,
                    height := 1350, formats := [], generate_print := true }],
      settings := defaultSettings }
    (by decide)
    { type := "poster", language := "English", width := 1080, height := 1350,
      formats := [], generate_print := true }
    (by decide) rfl

/-- C4 (amended): a transport-level error during a poll stops the
interval and resets the generating flag (so the Generate button is
enabled again and a new attempt can be made), but no user-facing
notification is emitted: the only side effects are the status query and
a console log, and the number of error toasts does not change. -/
theorem poll_transport_error_recovers (s : ControllerState)
    (hact : s.intervalActive = true) :
    (pollTick s PollResult.transportError).intervalActive = false ∧
    (pollTick s PollResult.transportError).generating = false ∧
    (pollTick s PollResult.transportError).effects =
      s.effects ++ [Effect.queryStatus, Effect.consoleError] ∧
    errorToastCount (pollTick s PollResult.transportError) =
      errorToastCount s := by
  rw [pollTick.eq_def, if_neg (by simp [hact])]
  refine ⟨rfl, rfl, rfl, ?_⟩
  simp [errorToastCount, List.countP_append]

/-- Concrete instantiation of `poll_transport_error_recovers`. -/
theorem poll_transport_error_recovers_witness :
    (pollTick afterSubmit PollResult.transportError).intervalActive = false ∧
    (pollTick afterSubmit PollResult.transportError).generating = false ∧
    (pollTick afterSubmit PollResult.transportError).effects =
      afterSubmit.effects ++ [Effect.queryStatus, Effect.consoleError] ∧
    errorToastCount (pollTick afterSubmit PollResult.transportError) =
      errorToastCount afterSubmit :=
  poll_transport_error_recovers afterSubmit (by decide)

/-- C4 (counterexample): on a transport error during polling, the
interval is stopped and the generating flag reset, but the user-facing
error notification the claim requires never appears (the error count does
not grow), so the claim as a whole is false on a freshly submitted run. -/
theorem poll_transport_error_no_toast_counterexample :
    ¬ ((pollTick afterSubmit PollResult.transportError).intervalActive = false ∧
       (pollTick afterSubmit PollResult.transportError).generating = false ∧
       errorToastCount (pollTick afterSubmit PollResult.transportError) =
         errorToastCount afterSubmit + 1) := by
  decide

/-- The C1 failing schedule: the submission is accepted, every 3000 ms
poll for the whole 300000 ms window reports `pending`, then the 5-minute
timeout fires. -/
def allPendingRun : List Event :=
  List.replicate 100 (Event.tick PollResult.pending) ++ [Event.timeout]

set_option maxRecDepth 40000 in
/-- C1 (code bug): on a run whose polls all stay `pending` until the
300000 ms timeout fires, the timeout callback does clear the interval
(no status query is ever issued afterwards), but because it reads the
closure-captured `isGenerating` — which was `false` when the callback was
scheduled — it never reports the timeout to the user and never leaves the
generating state: no `TimedOut` transition is observable. -/
theorem timeout_not_reported :
    timeoutDelayMs = 300000 ∧
    (run afterSubmit allPendingRun).intervalActive = false ∧
    (run afterSubmit allPendingRun).generating = true ∧
    Effect.toastError "Generation timed out. Please try again."
      ∉ (run afterSubmit allPendingRun).effects ∧
    ∀ es, queryCount (run (run afterSubmit allPendingRun) es) =
      queryCount (run afterSubmit allPendingRun) := by
  refine ⟨rfl, by decide, by decide, by decide, ?_⟩
  intro es
  have h := run_frozen es (run afterSubmit allPendingRun) (by decide) (by decide)
  simp only [queryCount, h.1]

/-! ## Download materializer lemmas -/

theorem scheduleSavesFrom_length (assets : List Asset) :
    ∀ k, (scheduleSavesFrom k assets).length = assets.length := by
  induction assets with
  | nil => intro k; rfl
  | cons a rest ih =>
    intro k
    simp only [scheduleSavesFrom, List.length_cons, ih (k + 1)]

theorem scheduleSavesFrom_getElem (assets : List Asset) :
    ∀ k i, (scheduleSavesFrom k assets)[i]? =
      (assets[i]?).map (fun a => ((k + i) * 100, downloadAsset a)) := by
  induction assets with
  | nil => intro k i; simp [scheduleSavesFrom]
  | cons a rest ih =>
    intro k i
    cases i with
    | zero => simp [scheduleSavesFrom, downloadAsset]
    | succ i =>
      simp only [scheduleSavesFrom, List.getElem?_cons_succ]
      rw [ih (k + 1) i]
      have harith : k + 1 + i = k + (i + 1) := by omega
      rw [harith]

/-- C9: `handleDownloadAll` schedules one save per asset, in the store's
order, the `i`-th at a delay of `i * 100` ms; each scheduled save is
exactly `downloadAsset` of that asset, and its filename matches the
spec's `asset_{type}_{language}_{width}x{height}.{format}` pattern. -/
theorem downloadAll_schedule (assets : List Asset) (i : Nat) :
    (handleDownloadAll assets).length = assets.length ∧
    (handleDownloadAll assets)[i]? =
      (assets[i]?).map (fun a => (i * 100, downloadAsset a)) ∧
    ∀ a : Asset, (downloadAsset a).filename =
      specFilenamePattern a.output_type a.language a.width a.height a.format := by
  refine ⟨scheduleSavesFrom_length assets 0, ?_, fun a => rfl⟩
  rw [handleDownloadAll, scheduleSavesFrom_getElem assets 0 i]
  simp

end AssetGen
